import Mathlib

/-!
# VigilWolf domain-monitoring core: shallow embedding and verification

This file embeds the capture-and-change-detection pipeline of the VigilWolf
backend (`vigilwolf-core/backend`) in Lean 4 and proves or refutes the frozen
specification claims about it.

Conventions of the embedding:
* Python machine-level arithmetic is modelled on `Nat` with explicit `% 2^w`
  where overflow matters (SHA-256 words are 32-bit).
* Fallible operations (file system, network) are modelled by oracles supplied
  as explicit record fields: an `Except PyErr α` value is the outcome the
  operation would have (`.error` = the Python call raises).  Side effects
  (log appends, metadata writes) are collected in explicit effect lists.
* Python `time.sleep` calls are recorded as trace events with their (exact,
  rational) durations; `RETRY_DELAY_SECONDS = 1.0` and
  `RETRY_BACKOFF_MULTIPLIER = 2.0` are exactly representable, so modelling
  the float delays by `ℚ` is faithful for the values the claims mention.
-/

namespace VigilWolf

/-! ## SHA-256 (Python `hashlib.sha256(...).hexdigest()`)

`CaptureEngine.compare_html` hashes each input's UTF-8 encoding with SHA-256
and compares the hex digests.  The algorithm below is the FIPS 180-4
computation on `Nat` with explicit `% 2^32` reductions. -/

/-- The SHA-256 word modulus `2^32`. -/
def M32 : Nat := 4294967296

/-- Rotate a 32-bit word right by `n` bits. -/
def rotr32 (n x : Nat) : Nat := ((x >>> n) ||| (x <<< (32 - n))) % M32

/-- SHA-256 Σ₀. -/
def bsig0 (x : Nat) : Nat := (rotr32 2 x) ^^^ (rotr32 13 x) ^^^ (rotr32 22 x)

/-- SHA-256 Σ₁. -/
def bsig1 (x : Nat) : Nat := (rotr32 6 x) ^^^ (rotr32 11 x) ^^^ (rotr32 25 x)

/-- SHA-256 σ₀. -/
def ssig0 (x : Nat) : Nat := (rotr32 7 x) ^^^ (rotr32 18 x) ^^^ (x >>> 3)

/-- SHA-256 σ₁. -/
def ssig1 (x : Nat) : Nat := (rotr32 17 x) ^^^ (rotr32 19 x) ^^^ (x >>> 10)

/-- SHA-256 Ch(e,f,g). -/
def chFun (e f g : Nat) : Nat := (e &&& f) ^^^ ((e ^^^ 4294967295) &&& g)

/-- SHA-256 Maj(a,b,c). -/
def majFun (a b c : Nat) : Nat := (a &&& b) ^^^ (a &&& c) ^^^ (b &&& c)

/-- The 64 SHA-256 round constants. -/
def K64 : List Nat :=
  [1116352408, 1899447441, 3049323471, 3921009573, 961987163, 1508970993,
   2453635748, 2870763221, 3624381080, 310598401, 607225278, 1426881987,
   1925078388, 2162078206, 2614888103, 3248222580, 3835390401, 4022224774,
   264347078, 604807628, 770255983, 1249150122, 1555081692, 1996064986,
   2554220882, 2821834349, 2952996808, 3210313671, 3336571891, 3584528711,
   113926993, 338241895, 666307205, 773529912, 1294757372, 1396182291,
   1695183700, 1986661051, 2177026350, 2456956037, 2730485921, 2820302411,
   3259730800, 3345764771, 3516065817, 3600352804, 4094571909, 275423344,
   430227734, 506948616, 659060556, 883997877, 958139571, 1322822218,
   1537002063, 1747873779, 1955562222, 2024104815, 2227730452, 2361852424,
   2428436474, 2756734187, 3204031479, 3329325298]

/-- The eight SHA-256 working registers / hash state words. -/
structure Regs where
  ra : Nat
  rb : Nat
  rc : Nat
  rd : Nat
  re : Nat
  rf : Nat
  rg : Nat
  rh : Nat
deriving Repr, DecidableEq

/-- The SHA-256 initial hash value. -/
def initRegs : Regs :=
  ⟨1779033703, 3144134277, 1013904242, 2773480762, 1359893119, 2600822924, 528734635, 1541459225⟩

/-- One SHA-256 compression round; `kw` is `K[i] + W[i]` reduced mod `2^32`. -/
def roundStep (s : Regs) (kw : Nat) : Regs :=
  let t1 := (s.rh + bsig1 s.re + chFun s.re s.rf s.rg + kw) % M32
  let t2 := (bsig0 s.ra + majFun s.ra s.rb s.rc) % M32
  { ra := (t1 + t2) % M32, rb := s.ra, rc := s.rb, rd := s.rc,
    re := (s.rd + t1) % M32, rf := s.re, rg := s.rf, rh := s.rg }

/-- SHA-256 padding: append `0x80`, zero bytes to 56 mod 64, and the 64-bit
big-endian bit length. -/
def padMessage (msg : List Nat) : List Nat :=
  let L := msg.length
  msg ++ [128] ++ List.replicate ((119 - L % 64) % 64) 0 ++
    (List.range 8).map (fun i => ((8 * L) >>> (56 - 8 * i)) % 256)

/-- Split a byte list into 64-byte chunks. -/
def toChunks (l : List Nat) : List (List Nat) :=
  if h : l = [] then [] else l.take 64 :: toChunks (l.drop 64)
termination_by l.length
decreasing_by
  have : 0 < l.length := List.length_pos.mpr h
  simp only [List.length_drop]
  omega

/-- The sixteen big-endian 32-bit words of one 64-byte chunk. -/
def toWords (chunk : List Nat) : List Nat :=
  (List.range 16).map (fun i =>
    (chunk.getD (4 * i) 0 % 256) * 16777216 + (chunk.getD (4 * i + 1) 0 % 256) * 65536 +
    (chunk.getD (4 * i + 2) 0 % 256) * 256 + chunk.getD (4 * i + 3) 0 % 256)

/-- Extend the sixteen message words to the 64-entry message schedule. -/
def scheduleW (w16 : List Nat) : List Nat :=
  (List.range 48).foldl (fun w _ =>
    w ++ [(ssig1 (w.getD (w.length - 2) 0) + w.getD (w.length - 7) 0 +
           ssig0 (w.getD (w.length - 15) 0) + w.getD (w.length - 16) 0) % M32]) w16

/-- Compress one 64-byte chunk into the running hash state. -/
def compressChunk (hs : Regs) (chunk : List Nat) : Regs :=
  let w := scheduleW (toWords chunk)
  let s := (List.range 64).foldl
    (fun s i => roundStep s ((K64.getD i 0 + w.getD i 0) % M32)) hs
  { ra := (hs.ra + s.ra) % M32, rb := (hs.rb + s.rb) % M32, rc := (hs.rc + s.rc) % M32,
    rd := (hs.rd + s.rd) % M32, re := (hs.re + s.re) % M32, rf := (hs.rf + s.rf) % M32,
    rg := (hs.rg + s.rg) % M32, rh := (hs.rh + s.rh) % M32 }

/-- SHA-256 of a byte list, as the final state words. -/
def sha256Regs (msg : List Nat) : Regs :=
  (toChunks (padMessage msg)).foldl compressChunk initRegs

/-- The four big-endian bytes of a 32-bit word. -/
def bytesOfWord (w : Nat) : List Nat :=
  [(w >>> 24) % 256, (w >>> 16) % 256, (w >>> 8) % 256, w % 256]

/-- The 32 digest bytes of a final hash state. -/
def digestBytes (r : Regs) : List Nat :=
  bytesOfWord (r.ra % M32) ++ bytesOfWord (r.rb % M32) ++ bytesOfWord (r.rc % M32) ++
  bytesOfWord (r.rd % M32) ++ bytesOfWord (r.re % M32) ++ bytesOfWord (r.rf % M32) ++
  bytesOfWord (r.rg % M32) ++ bytesOfWord (r.rh % M32)

/-- Lower-case hex character of a nibble. -/
def hexChar (n : Nat) : Char := "0123456789abcdef".data.getD (n % 16) '0'

/-- Two hex characters of a byte. -/
def byteHex (b : Nat) : List Char := [hexChar ((b / 16) % 16), hexChar (b % 16)]

/-- Hex string of a byte list (Python `.hexdigest()` formatting). -/
def hexOfBytes (bs : List Nat) : String := String.mk ((bs.map byteHex).flatten)

/-- The digest as a single natural number (base-256 value of its bytes);
used to state digest equality independently of formatting. -/
def digestNat (r : Regs) : Nat := (digestBytes r).foldl (fun a b => a * 256 + b) 0

/-- Python `str.encode('utf-8')` of one character (Unicode scalar value). -/
def utf8Char (c : Char) : List Nat :=
  let n := c.toNat
  if n < 128 then [n]
  else if n < 2048 then [192 + n / 64, 128 + n % 64]
  else if n < 65536 then [224 + n / 4096, 128 + (n / 64) % 64, 128 + n % 64]
  else [240 + n / 262144, 128 + (n / 4096) % 64, 128 + (n / 64) % 64, 128 + n % 64]

/-- Python `str.encode('utf-8')` of a string. -/
def utf8Encode (s : String) : List Nat := (s.data.map utf8Char).flatten

/-- `hashlib.sha256(s.encode('utf-8')).hexdigest()`. -/
def sha256HexOfString (s : String) : String := hexOfBytes (digestBytes (sha256Regs (utf8Encode s)))

/-- `CaptureEngine.compare_html` (capture_engine.py lines 89-104): hash both
inputs, return whether the hex digests differ. -/
def compare_html (html1 html2 : String) : Bool :=
  sha256HexOfString html1 != sha256HexOfString html2

/-! ### Digest-encoding facts -/

theorem bytesOfWord_bound (w : Nat) : ∀ b ∈ bytesOfWord w, b < 256 := by
  intro b hb
  simp only [bytesOfWord, List.mem_cons, List.not_mem_nil, or_false] at hb
  rcases hb with h | h | h | h <;> rw [h] <;> exact Nat.mod_lt _ (by norm_num)

theorem digestBytes_length (r : Regs) : (digestBytes r).length = 32 := by
  simp [digestBytes, bytesOfWord]

theorem digestBytes_bound (r : Regs) : ∀ b ∈ digestBytes r, b < 256 := by
  intro b hb
  simp only [digestBytes, List.mem_append] at hb
  rcases hb with ((((((h | h) | h) | h) | h) | h) | h) | h <;> exact bytesOfWord_bound _ _ h

/-- Base-256 value of a byte list (big-endian). -/
def baseVal (l : List Nat) : Nat := l.foldl (fun a b => a * 256 + b) 0

theorem digestNat_eq_baseVal (r : Regs) : digestNat r = baseVal (digestBytes r) := rfl

theorem foldl256_acc : ∀ (l : List Nat) (a : Nat),
    l.foldl (fun x b => x * 256 + b) a = a * 256 ^ l.length + l.foldl (fun x b => x * 256 + b) 0 := by
  intro l
  induction l with
  | nil => intro a; simp
  | cons h t ih =>
    intro a
    simp only [List.foldl_cons, List.length_cons]
    rw [ih (a * 256 + h), ih (0 * 256 + h)]
    ring

theorem baseVal_cons (h : Nat) (t : List Nat) :
    baseVal (h :: t) = h * 256 ^ t.length + baseVal t := by
  simp only [baseVal, List.foldl_cons]
  rw [foldl256_acc]
  ring

theorem baseVal_lt (l : List Nat) (hb : ∀ b ∈ l, b < 256) : baseVal l < 256 ^ l.length := by
  induction l with
  | nil => simp [baseVal]
  | cons h t ih =>
    have hh : h < 256 := hb h (by simp)
    have ht : baseVal t < 256 ^ t.length := ih (fun b hbm => hb b (by simp [hbm]))
    rw [baseVal_cons, List.length_cons, pow_succ]
    have h1 : h * 256 ^ t.length + baseVal t < (h + 1) * 256 ^ t.length := by
      rw [Nat.succ_mul]
      exact Nat.add_lt_add_left ht _
    have h2 : (h + 1) * 256 ^ t.length ≤ 256 * 256 ^ t.length :=
      Nat.mul_le_mul_right _ hh
    calc h * 256 ^ t.length + baseVal t < (h + 1) * 256 ^ t.length := h1
      _ ≤ 256 * 256 ^ t.length := h2
      _ = 256 ^ t.length * 256 := Nat.mul_comm _ _

theorem baseVal_inj : ∀ (l1 l2 : List Nat), l1.length = l2.length →
    (∀ b ∈ l1, b < 256) → (∀ b ∈ l2, b < 256) → baseVal l1 = baseVal l2 → l1 = l2 := by
  intro l1
  induction l1 with
  | nil =>
    intro l2 hlen _ _ _
    cases l2 with
    | nil => rfl
    | cons h2 t2 => simp at hlen
  | cons h t ih =>
    intro l2 hlen hb1 hb2 hval
    cases l2 with
    | nil => simp at hlen
    | cons h2 t2 =>
      have hlen' : t.length = t2.length := by simpa using hlen
      rw [baseVal_cons, baseVal_cons, hlen'] at hval
      have hv1 : baseVal t < 256 ^ t2.length := by
        rw [← hlen']
        exact baseVal_lt t (fun b hbm => hb1 b (by simp [hbm]))
      have hv2 : baseVal t2 < 256 ^ t2.length := baseVal_lt t2 (fun b hbm => hb2 b (by simp [hbm]))
      have key : ∀ a b v w : Nat, v < 256 ^ t2.length → w < 256 ^ t2.length →
          a * 256 ^ t2.length + v = b * 256 ^ t2.length + w → ¬ a < b := by
        intro a b v w hv hw heq hab
        have hc : a * 256 ^ t2.length + v < a * 256 ^ t2.length + v :=
          calc a * 256 ^ t2.length + v
              < a * 256 ^ t2.length + 256 ^ t2.length := Nat.add_lt_add_left hv _
            _ = (a + 1) * 256 ^ t2.length := (Nat.succ_mul a _).symm
            _ ≤ b * 256 ^ t2.length := Nat.mul_le_mul_right _ hab
            _ ≤ b * 256 ^ t2.length + w := Nat.le_add_right _ _
            _ = a * 256 ^ t2.length + v := heq.symm
        exact absurd hc (lt_irrefl _)
      have hh : h = h2 := by
        rcases Nat.lt_trichotomy h h2 with hlt | heq | hgt
        · exact absurd hlt (key h h2 _ _ hv1 hv2 hval)
        · exact heq
        · exact absurd hgt (key h2 h _ _ hv2 hv1 hval.symm)
      subst hh
      have hteq : baseVal t = baseVal t2 := Nat.add_left_cancel hval
      have := ih t2 hlen' (fun b hbm => hb1 b (by simp [hbm])) (fun b hbm => hb2 b (by simp [hbm])) hteq
      rw [this]

theorem digestNat_lt (r : Regs) : digestNat r < 2 ^ 256 := by
  have h := baseVal_lt (digestBytes r) (digestBytes_bound r)
  rw [digestBytes_length] at h
  have e : (256 : Nat) ^ 32 = 2 ^ 256 := by norm_num
  rw [e] at h
  exact h

theorem digestBytes_eq_of_digestNat_eq {r1 r2 : Regs} (h : digestNat r1 = digestNat r2) :
    digestBytes r1 = digestBytes r2 :=
  baseVal_inj _ _ (by rw [digestBytes_length, digestBytes_length])
    (digestBytes_bound r1) (digestBytes_bound r2) h

/-! ### Hex formatting is injective on byte lists -/

theorem hexChar_inj_fin : ∀ a b : Fin 16, hexChar a.val = hexChar b.val → a = b := by decide

theorem hexChar_inj {a b : Nat} (ha : a < 16) (hb : b < 16) (h : hexChar a = hexChar b) : a = b := by
  have := hexChar_inj_fin ⟨a, ha⟩ ⟨b, hb⟩ h
  simpa using congrArg Fin.val this

theorem byteHex_mod {b1 b2 : Nat} (h : byteHex b1 = byteHex b2) : b1 % 256 = b2 % 256 := by
  simp only [byteHex, List.cons.injEq, and_true] at h
  obtain ⟨h1, h2⟩ := h
  have e1 := hexChar_inj (Nat.mod_lt _ (by norm_num)) (Nat.mod_lt _ (by norm_num)) h1
  have e2 := hexChar_inj (Nat.mod_lt _ (by norm_num)) (Nat.mod_lt _ (by norm_num)) h2
  omega

theorem hexFlatten_inj : ∀ (l1 l2 : List Nat), l1.length = l2.length →
    (∀ b ∈ l1, b < 256) → (∀ b ∈ l2, b < 256) →
    (l1.map byteHex).flatten = (l2.map byteHex).flatten → l1 = l2 := by
  intro l1
  induction l1 with
  | nil =>
    intro l2 hlen _ _ _
    cases l2 with
    | nil => rfl
    | cons h2 t2 => simp at hlen
  | cons h t ih =>
    intro l2 hlen hb1 hb2 hflat
    cases l2 with
    | nil => simp at hlen
    | cons h2 t2 =>
      have hlen' : t.length = t2.length := by simpa using hlen
      simp only [List.map_cons, List.flatten_cons, byteHex, List.cons_append,
        List.nil_append, List.cons.injEq] at hflat
      obtain ⟨hc1, hc2, htail⟩ := hflat
      have hmod : h % 256 = h2 % 256 := byteHex_mod (by simp [byteHex, hc1, hc2])
      have hh : h = h2 := by
        have hb1' : h < 256 := hb1 h (by simp)
        have hb2' : h2 < 256 := hb2 h2 (by simp)
        omega
      subst hh
      have := ih t2 hlen' (fun b hbm => hb1 b (by simp [hbm])) (fun b hbm => hb2 b (by simp [hbm]))
        (by simpa [byteHex] using htail)
      rw [this]

theorem hexOfBytes_digest_inj {r1 r2 : Regs}
    (h : hexOfBytes (digestBytes r1) = hexOfBytes (digestBytes r2)) :
    digestBytes r1 = digestBytes r2 := by
  have hflat : ((digestBytes r1).map byteHex).flatten = ((digestBytes r2).map byteHex).flatten := by
    simpa [hexOfBytes] using congrArg String.data h
  exact hexFlatten_inj _ _ (by rw [digestBytes_length, digestBytes_length])
    (digestBytes_bound r1) (digestBytes_bound r2) hflat

/-- `compare_html` is exactly "the SHA-256 digests differ". -/
theorem compare_html_iff_digest (x y : String) :
    compare_html x y = true ↔
      digestNat (sha256Regs (utf8Encode x)) ≠ digestNat (sha256Regs (utf8Encode y)) := by
  constructor
  · intro hcmp heq
    have hbytes := digestBytes_eq_of_digestNat_eq heq
    simp [compare_html, sha256HexOfString, hbytes] at hcmp
  · intro hne
    by_contra hc
    have hhex : sha256HexOfString x = sha256HexOfString y := by
      simpa [compare_html, bne_eq_false_iff_eq] using hc
    have hbytes := hexOfBytes_digest_inj (by simpa [sha256HexOfString] using hhex)
    exact hne (by rw [digestNat_eq_baseVal, digestNat_eq_baseVal, hbytes])

/-! ### A SHA-256 collision exists (pigeonhole), refuting byte-exactness -/

/-- The `i`-th probe string: 257 characters, each `'0'` or `'1'`, spelling the
binary digits of `i`. -/
def collideInput (i : Nat) : String :=
  String.mk ((List.range 257).map (fun k => if (i >>> k) % 2 = 1 then '1' else '0'))

theorem shiftRight_mod_two (i k : Nat) : (i >>> k) % 2 = if i.testBit k then 1 else 0 := by
  rcases h : i.testBit k <;> simp [Nat.testBit, Nat.shiftRight_eq_div_pow] at h ⊢ <;> omega

theorem collideInput_inj {i j : Nat} (hi : i < 2 ^ 257) (hj : j < 2 ^ 257)
    (h : collideInput i = collideInput j) : i = j := by
  apply Nat.eq_of_testBit_eq
  intro k
  by_cases hk : k < 257
  · have hl : (List.range 257).map (fun k => if (i >>> k) % 2 = 1 then '1' else '0') =
        (List.range 257).map (fun k => if (j >>> k) % 2 = 1 then '1' else '0') := by
      injection h
    rw [List.map_eq_map_iff] at hl
    have hc := hl k (List.mem_range.mpr hk)
    rw [shiftRight_mod_two i k, shiftRight_mod_two j k] at hc
    rcases hbi : i.testBit k <;> rcases hbj : j.testBit k <;>
      simp [hbi, hbj] at hc ⊢
  · have hik : i < 2 ^ k :=
      lt_of_lt_of_le hi (Nat.pow_le_pow_right (by norm_num) (le_of_not_lt hk))
    have hjk : j < 2 ^ k :=
      lt_of_lt_of_le hj (Nat.pow_le_pow_right (by norm_num) (le_of_not_lt hk))
    rw [Nat.testBit_eq_false_of_lt hik, Nat.testBit_eq_false_of_lt hjk]

theorem sha256_exists_collision : ∃ x y : String, x ≠ y ∧ compare_html x y = false := by
  obtain ⟨a, b, hab, hg⟩ := Fintype.exists_ne_map_eq_of_card_lt
    (fun i : Fin (2 ^ 256 + 1) =>
      (⟨digestNat (sha256Regs (utf8Encode (collideInput i.val))), digestNat_lt _⟩ : Fin (2 ^ 256)))
    (by rw [Fintype.card_fin, Fintype.card_fin]; exact Nat.lt_succ_self _)
  have hlt : ∀ c : Fin (2 ^ 256 + 1), (c : Nat) < 2 ^ 257 := by
    intro c
    have h1 := c.isLt
    have h2 : (2 : Nat) ^ 257 = 2 ^ 256 * 2 := pow_succ 2 256
    have h3 : 0 < (2 : Nat) ^ 256 := Nat.pos_pow_of_pos _ (by norm_num)
    omega
  refine ⟨collideInput a.val, collideInput b.val, ?_, ?_⟩
  · intro hstr
    exact hab (Fin.ext (collideInput_inj (hlt a) (hlt b) hstr))
  · have hdig : digestNat (sha256Regs (utf8Encode (collideInput a.val))) =
        digestNat (sha256Regs (utf8Encode (collideInput b.val))) := by
      simpa using congrArg Fin.val hg
    have hbytes := digestBytes_eq_of_digestNat_eq hdig
    simp [compare_html, sha256HexOfString, hbytes]

/-- **C3 (counterexample).** The claim "`compare_html x x` is always `false`,
and `compare_html x y` is `true` whenever `x ≠ y`" is false as stated: by
pigeonhole, two distinct strings share an SHA-256 digest, and `compare_html`
returns `false` on them. -/
theorem compare_html_byte_exact_refuted :
    ¬ ((∀ x : String, compare_html x x = false) ∧
       ∀ x y : String, x ≠ y → compare_html x y = true) := by
  rintro ⟨-, h⟩
  obtain ⟨x, y, hne, hfalse⟩ := sha256_exists_collision
  have ht := h x y hne
  rw [hfalse] at ht
  exact Bool.false_ne_true ht

/-- **C3 (amended).** For every `x`, `compare_html x x = false`; and
`compare_html x y = true` exactly when the SHA-256 digests of the UTF-8
encodings of `x` and `y` differ — a byte-exact comparison up to hash
collision, with no normalization of whitespace or markup. -/
theorem compare_html_reflexive_and_digest_exact (x y : String) :
    compare_html x x = false ∧
    (compare_html x y = true ↔
      digestNat (sha256Regs (utf8Encode x)) ≠ digestNat (sha256Regs (utf8Encode y))) := by
  constructor
  · simp [compare_html]
  · exact compare_html_iff_digest x y

/-! ## `CaptureEngine.fetch_html` (capture_engine.py lines 39-87)

The network is modelled by an oracle mapping the attempt index to the outcome
the `requests.get` call (plus `raise_for_status`) would have.  Sleeps and
attempts are recorded as trace events; config defaults `MAX_RETRIES = 3`,
`RETRY_DELAY_SECONDS = 1.0`, `RETRY_BACKOFF_MULTIPLIER = 2.0`. -/

/-- `RETRY_DELAY_SECONDS` (config.py default 1.0). -/
def RETRY_DELAY_SECONDS : ℚ := 1

/-- `RETRY_BACKOFF_MULTIPLIER` (config.py default 2.0). -/
def RETRY_BACKOFF_MULTIPLIER : ℚ := 2

/-- `MAX_RETRIES` (config.py default 3). -/
def MAX_RETRIES : Nat := 3

/-- Outcome of one `requests.get(url, ...)` / `raise_for_status()` attempt,
as discriminated by `fetch_html`'s exception handlers. -/
inductive FetchOutcome where
  | success (html : String)
  | timeout
  | connError
  | httpError (status : Nat)
  | otherError
deriving Repr, DecidableEq

/-- Observable events of a `fetch_html` run: attempts and backoff sleeps. -/
inductive FetchEvent where
  | attempt (n : Nat)
  | sleep (seconds : ℚ)
deriving Repr, DecidableEq

/-- The `for attempt in range(max_retries)` loop of `fetch_html`, carrying the
current attempt index and the current `retry_delay`. -/
def fetchHtmlLoop (oracle : Nat → FetchOutcome) (maxRetries attempt : Nat) (delay : ℚ) :
    (String × Bool) × List FetchEvent :=
  if h : attempt < maxRetries then
    match oracle attempt with
    | .success html => ((html, true), [.attempt attempt])
    | .timeout =>
        if attempt < maxRetries - 1 then
          let rest := fetchHtmlLoop oracle maxRetries (attempt + 1) (delay * RETRY_BACKOFF_MULTIPLIER)
          (rest.1, .attempt attempt :: .sleep delay :: rest.2)
        else
          let rest := fetchHtmlLoop oracle maxRetries (attempt + 1) delay
          (rest.1, .attempt attempt :: rest.2)
    | .connError =>
        if attempt < maxRetries - 1 then
          let rest := fetchHtmlLoop oracle maxRetries (attempt + 1) (delay * RETRY_BACKOFF_MULTIPLIER)
          (rest.1, .attempt attempt :: .sleep delay :: rest.2)
        else
          let rest := fetchHtmlLoop oracle maxRetries (attempt + 1) delay
          (rest.1, .attempt attempt :: rest.2)
    | .httpError status =>
        if 500 ≤ status then
          if attempt < maxRetries - 1 then
            let rest := fetchHtmlLoop oracle maxRetries (attempt + 1) (delay * RETRY_BACKOFF_MULTIPLIER)
            (rest.1, .attempt attempt :: .sleep delay :: rest.2)
          else
            let rest := fetchHtmlLoop oracle maxRetries (attempt + 1) delay
            (rest.1, .attempt attempt :: rest.2)
        else (("", false), [.attempt attempt])
    | .otherError => (("", false), [.attempt attempt])
  else (("", false), [])
termination_by maxRetries - attempt
decreasing_by all_goals omega

/-- `CaptureEngine.fetch_html`: run the retry loop from attempt 0 with the
configured base delay. -/
def fetch_html (oracle : Nat → FetchOutcome) (maxRetries : Nat := MAX_RETRIES) :
    (String × Bool) × List FetchEvent :=
  fetchHtmlLoop oracle maxRetries 0 RETRY_DELAY_SECONDS

/-- Count of fetch attempts in a trace. -/
def countAttempts (events : List FetchEvent) : Nat :=
  events.countP (fun e => match e with | .attempt _ => true | _ => false)

/-- **C2.** If every attempt times out, `fetch_html` with `maxRetries = 3`,
base delay 1.0s and multiplier 2.0 makes exactly 3 attempts, sleeps 1.0s
after the first failure and 2.0s after the second, does not sleep after the
third, and returns `("", false)`. -/
theorem fetch_html_all_timeouts (oracle : Nat → FetchOutcome)
    (h : ∀ n, oracle n = FetchOutcome.timeout) :
    fetch_html oracle 3 =
      (("", false),
       [.attempt 0, .sleep 1, .attempt 1, .sleep 2, .attempt 2]) ∧
    countAttempts (fetch_html oracle 3).2 = 3 := by
  have e : fetch_html oracle 3 =
      (("", false), [.attempt 0, .sleep 1, .attempt 1, .sleep 2, .attempt 2]) := by
    rw [fetch_html]
    rw [fetchHtmlLoop]
    simp only [h]
    norm_num [RETRY_DELAY_SECONDS, RETRY_BACKOFF_MULTIPLIER]
    rw [fetchHtmlLoop]
    simp only [h]
    norm_num
    rw [fetchHtmlLoop]
    simp only [h]
    norm_num
    rw [fetchHtmlLoop]
    norm_num
  exact ⟨e, by rw [e]; rfl⟩

/-- **C2 (witness).** The theorem applied to the concrete always-timeout
oracle. -/
theorem fetch_html_all_timeouts_witness :
    fetch_html (fun _ => FetchOutcome.timeout) 3 =
      (("", false),
       [.attempt 0, .sleep 1, .attempt 1, .sleep 2, .attempt 2]) ∧
    countAttempts (fetch_html (fun _ => FetchOutcome.timeout) 3).2 = 3 :=
  fetch_html_all_timeouts (fun _ => FetchOutcome.timeout) (fun _ => rfl)

/-- **C7.** An attempt that sees an HTTP error with status `< 500` is
terminal: from that attempt the loop returns `("", false)` at once, with no
further attempt and no backoff sleep. -/
theorem fetch_html_4xx_terminal (oracle : Nat → FetchOutcome) (maxRetries attempt : Nat)
    (delay : ℚ) (status : Nat) (hatt : attempt < maxRetries)
    (hor : oracle attempt = FetchOutcome.httpError status) (hst : status < 500) :
    fetchHtmlLoop oracle maxRetries attempt delay = (("", false), [.attempt attempt]) := by
  rw [fetchHtmlLoop]
  simp [hatt, hor, Nat.not_le.mpr hst]

/-- **C7 (witness).** A 404 on the first attempt of a default 3-retry call. -/
theorem fetch_html_4xx_terminal_witness :
    fetch_html (fun _ => FetchOutcome.httpError 404) 3 =
      (("", false), [.attempt 0]) :=
  fetch_html_4xx_terminal (fun _ => FetchOutcome.httpError 404) 3 0
    RETRY_DELAY_SECONDS 404 (by norm_num) rfl (by norm_num)

/-! ## `CaptureEngine.capture_screenshot` (capture_engine.py lines 106-320)

The Playwright subprocess and the Selenium driver are modelled by per-attempt
outcome oracles (the URL and output path only flow into those attempts, so
they are absorbed by the oracles).  Backend attempts and backoff sleeps are
recorded as trace events. -/

/-- Outcome of one Playwright subprocess attempt inside
`_capture_with_playwright`. -/
inductive PwOutcome where
  | success
  | failed
  | timeoutExpired
  | raised
deriving Repr, DecidableEq

/-- Outcome of one Selenium attempt inside `_capture_with_selenium`. -/
inductive SelOutcome where
  | success
  | emptyFile
  | webDriverError
  | raised
deriving Repr, DecidableEq

/-- Observable events of a `capture_screenshot` run. -/
inductive ScEvent where
  | pwAttempt (n : Nat)
  | selAttempt (n : Nat)
  | sleep (seconds : ℚ)
deriving Repr, DecidableEq

/-- The retry loop of `_capture_with_playwright`.  A non-timeout subprocess
failure falls through to the next iteration without sleeping; timeouts and
raised exceptions sleep with backoff unless on the final attempt. -/
def playwrightLoop (oracle : Nat → PwOutcome) (maxRetries attempt : Nat) (delay : ℚ) :
    Bool × List ScEvent :=
  if h : attempt < maxRetries then
    match oracle attempt with
    | .success => (true, [.pwAttempt attempt])
    | .failed =>
        let rest := playwrightLoop oracle maxRetries (attempt + 1) delay
        (rest.1, .pwAttempt attempt :: rest.2)
    | .timeoutExpired =>
        if attempt < maxRetries - 1 then
          let rest := playwrightLoop oracle maxRetries (attempt + 1) (delay * RETRY_BACKOFF_MULTIPLIER)
          (rest.1, .pwAttempt attempt :: .sleep delay :: rest.2)
        else
          let rest := playwrightLoop oracle maxRetries (attempt + 1) delay
          (rest.1, .pwAttempt attempt :: rest.2)
    | .raised =>
        if attempt < maxRetries - 1 then
          let rest := playwrightLoop oracle maxRetries (attempt + 1) (delay * RETRY_BACKOFF_MULTIPLIER)
          (rest.1, .pwAttempt attempt :: .sleep delay :: rest.2)
        else
          let rest := playwrightLoop oracle maxRetries (attempt + 1) delay
          (rest.1, .pwAttempt attempt :: rest.2)
  else (false, [])
termination_by maxRetries - attempt
decreasing_by all_goals omega

/-- The retry loop of `_capture_with_selenium`.  A written-but-empty
screenshot file returns `false` immediately; driver errors and raised
exceptions sleep with backoff unless on the final attempt. -/
def seleniumLoop (oracle : Nat → SelOutcome) (maxRetries attempt : Nat) (delay : ℚ) :
    Bool × List ScEvent :=
  if h : attempt < maxRetries then
    match oracle attempt with
    | .success => (true, [.selAttempt attempt])
    | .emptyFile => (false, [.selAttempt attempt])
    | .webDriverError =>
        if attempt < maxRetries - 1 then
          let rest := seleniumLoop oracle maxRetries (attempt + 1) (delay * RETRY_BACKOFF_MULTIPLIER)
          (rest.1, .selAttempt attempt :: .sleep delay :: rest.2)
        else
          let rest := seleniumLoop oracle maxRetries (attempt + 1) delay
          (rest.1, .selAttempt attempt :: rest.2)
    | .raised =>
        if attempt < maxRetries - 1 then
          let rest := seleniumLoop oracle maxRetries (attempt + 1) (delay * RETRY_BACKOFF_MULTIPLIER)
          (rest.1, .selAttempt attempt :: .sleep delay :: rest.2)
        else
          let rest := seleniumLoop oracle maxRetries (attempt + 1) delay
          (rest.1, .selAttempt attempt :: rest.2)
  else (false, [])
termination_by maxRetries - attempt
decreasing_by all_goals omega

/-- `CaptureEngine.capture_screenshot`: returns `false` immediately when the
configuration flag disables screenshots; otherwise tries Playwright, then
Selenium (when importable) as fallback. -/
def capture_screenshot (screenshotEnabled seleniumInstalled : Bool)
    (pw : Nat → PwOutcome) (sel : Nat → SelOutcome) (maxRetries : Nat) :
    Bool × List ScEvent :=
  if !screenshotEnabled then (false, [])
  else
    let p := playwrightLoop pw maxRetries 0 RETRY_DELAY_SECONDS
    if p.1 then (true, p.2)
    else if !seleniumInstalled then (false, p.2)
    else
      let s := seleniumLoop sel maxRetries 0 RETRY_DELAY_SECONDS
      (s.1, p.2 ++ s.2)

/-- **C8.** With screenshot capture disabled by configuration,
`capture_screenshot` returns `false` with an empty event trace — zero
attempts against either rendering backend — for every URL, output path
(absorbed by the oracles) and retry count. -/
theorem capture_screenshot_disabled (seleniumInstalled : Bool)
    (pw : Nat → PwOutcome) (sel : Nat → SelOutcome) (maxRetries : Nat) :
    capture_screenshot false seleniumInstalled pw sel maxRetries = (false, []) := rfl

/-! ## Data model (models.py)

Python string operations used by the code are re-implemented structurally on
`List Char` so that all definitions evaluate by kernel reduction. -/

/-- Python exception payload (its string rendering). -/
abbrev PyErr := String

/-- `list1 is a prefix of list2`, structurally (Python `str.startswith`). -/
def listHasPre : List Char → List Char → Bool
  | [], _ => true
  | _ :: _, [] => false
  | a :: as, b :: bs => a == b && listHasPre as bs

/-- Python `s.startswith(p)`. -/
def pyStartsWith (s p : String) : Bool := listHasPre p.data s.data

/-- Python `s.strip()` (leading and trailing whitespace removed). -/
def pyStrip (s : String) : String :=
  String.mk (((s.data.dropWhile Char.isWhitespace).reverse.dropWhile Char.isWhitespace).reverse)

/-- Python `s.capitalize()`. -/
def pyCapitalize (s : String) : String :=
  match s.data with
  | [] => ""
  | c :: rest => String.mk (c.toUpper :: rest.map Char.toLower)

/-- Lexicographic (code-point) string order, as Python compares `str`s. -/
def lexLe (x y : List Char) : Bool :=
  match x, y with
  | [], _ => true
  | _ :: _, [] => false
  | a :: as, b :: bs => a.toNat < b.toNat || (a == b && lexLe as bs)

/-- Split a character list on `/`. -/
def splitSlash : List Char → List (List Char)
  | [] => [[]]
  | c :: rest =>
    let r := splitSlash rest
    if c = '/' then [] :: r
    else
      match r with
      | [] => [[c]]
      | h :: t => (c :: h) :: t

/-- Join path components with `/`. -/
def joinSlash : List (List Char) → List Char
  | [] => []
  | [p] => p
  | p :: rest => p ++ '/' :: joinSlash rest

/-- `str(Path(p).parent)` for the relative, slash-separated POSIX paths the
system records (no `..`, no leading slash): drop the last component; a
single-component or empty path has parent `"."`. -/
def pathParent (p : String) : String :=
  let parts := (splitSlash p.data).filter (fun c => c ≠ [])
  if parts.length ≤ 1 then "." else String.mk (joinSlash parts.dropLast)

/-- `Path(a) / b` for a relative `b`. -/
def pathJoin (a b : String) : String := a ++ "/" ++ b

/-- `models.Group`. -/
structure Group where
  id : String
  name : String
  created_at : String
  domain_ids : List String
deriving Repr, DecidableEq

/-- `models.Domain`. -/
structure Domain where
  id : String
  group_id : String
  url : String
  dump_mode : String
  frequency_seconds : Int
  created_at : String
  last_checked_at : Option String
  active : Bool
deriving Repr, DecidableEq

/-- `models.Snapshot`. -/
structure Snapshot where
  id : String
  domain_id : String
  timestamp : String
  trigger_type : String
  html_path : String
  screenshot_path : Option String
  assets_dir : Option String
  asset_count : Nat
  success : Bool
  error_message : Option String
deriving Repr, DecidableEq

/-- `models.PingLogEntry`. -/
structure PingLogEntry where
  timestamp : String
  reachable : Bool
  status_code : Option Nat
  change_detected : Bool
  message : String
deriving Repr, DecidableEq

/-- `models.DumpLogEntry`. -/
structure DumpLogEntry where
  timestamp : String
  trigger_type : String
  snapshot_id : String
  success : Bool
  error_message : Option String
  message : String
deriving Repr, DecidableEq

/-! ## `Snapshot.validate_integrity` (models.py lines 130-193) and
`StorageManager.validate_snapshot` (storage_manager.py lines 218-227)

The file system is an abstract read-only view.  Python truthiness of an
optional path (`if self.screenshot_path:`) is `optStrTruthy`. -/

/-- Read-only file-system view: existence, file/directory kind, and the
number of regular files `iterdir()` finds in a directory. -/
structure FileSys where
  pathExists : String → Bool
  isFile : String → Bool
  isDir : String → Bool
  fileCount : String → Nat

/-- Python truthiness of an `Optional[str]`. -/
def optStrTruthy : Option String → Bool
  | some s => s ≠ ""
  | none => false

/-- The HTML-path error block (models.py lines 143-151). -/
def htmlErrors (s : Snapshot) (fs : FileSys) (data_dir : String) : List String :=
  if s.html_path ≠ "" then
    if ¬ fs.pathExists (pathJoin data_dir s.html_path) then
      ["HTML file does not exist: " ++ s.html_path]
    else if ¬ fs.isFile (pathJoin data_dir s.html_path) then
      ["HTML path is not a file: " ++ s.html_path]
    else []
  else if s.success then ["HTML path is empty but snapshot marked as successful"]
  else []

/-- The screenshot error block (models.py lines 153-158): a missing
screenshot file is deliberately ignored. -/
def screenshotErrors (s : Snapshot) (fs : FileSys) (data_dir : String) : List String :=
  if optStrTruthy s.screenshot_path then
    let sp := s.screenshot_path.getD ""
    if ¬ fs.pathExists (pathJoin data_dir sp) then []
    else if ¬ fs.isFile (pathJoin data_dir sp) then
      ["Screenshot path is not a file: " ++ sp]
    else []
  else []

/-- The assets error block (models.py lines 160-174). -/
def assetsErrors (s : Snapshot) (fs : FileSys) (data_dir : String) : List String :=
  if optStrTruthy s.assets_dir then
    let ad := s.assets_dir.getD ""
    if ¬ fs.pathExists (pathJoin data_dir ad) then
      ["Assets directory does not exist: " ++ ad]
    else if ¬ fs.isDir (pathJoin data_dir ad) then
      ["Assets path is not a directory: " ++ ad]
    else if fs.fileCount (pathJoin data_dir ad) ≠ s.asset_count then
      ["Asset count mismatch: metadata says " ++ toString s.asset_count ++
       ", but found " ++ toString (fs.fileCount (pathJoin data_dir ad)) ++ " files"]
    else []
  else if s.asset_count > 0 then
    ["Asset count is " ++ toString s.asset_count ++ " but assets_dir is None"]
  else []

/-- The same-directory error block (models.py lines 176-191). -/
def parentErrors (s : Snapshot) : List String :=
  if s.html_path ≠ "" then
    (if optStrTruthy s.screenshot_path then
       if pathParent s.html_path ≠ pathParent (s.screenshot_path.getD "") then
         ["HTML and screenshot are not in the same snapshot directory"]
       else []
     else []) ++
    (if optStrTruthy s.assets_dir then
       if pathParent s.html_path ≠ pathParent (s.assets_dir.getD "") then
         ["HTML and assets are not in the same snapshot directory"]
       else []
     else [])
  else []

/-- `Snapshot.validate_integrity`: accumulate all error blocks in source
order and return `(errors == [], errors)`. -/
def validate_integrity (s : Snapshot) (fs : FileSys) (data_dir : String) :
    Bool × List String :=
  let errors := htmlErrors s fs data_dir ++ screenshotErrors s fs data_dir ++
    assetsErrors s fs data_dir ++ parentErrors s
  (errors.isEmpty, errors)

/-- `StorageManager.validate_snapshot`: delegate to `validate_integrity`
with the storage data directory. -/
def validate_snapshot (fs : FileSys) (data_dir : String) (s : Snapshot) :
    Bool × List String :=
  validate_integrity s fs data_dir

/-! ### Spec-side invariant violations (§3), for the completeness claim.
These follow the spec's words, to be compared with the code's checks. -/

/-- Spec §3: if `success` is true, the HTML path must reference an existing
file.  Violated when success is recorded but no existing file is referenced. -/
def specHtmlViolation (s : Snapshot) (fs : FileSys) (dd : String) : Prop :=
  s.success = true ∧
  ¬ (s.html_path ≠ "" ∧ fs.pathExists (pathJoin dd s.html_path) = true ∧
     fs.isFile (pathJoin dd s.html_path) = true)

/-- Spec §3: a recorded assets directory must exist and contain exactly
`asset_count` files. -/
def specAssetsViolation (s : Snapshot) (fs : FileSys) (dd : String) : Prop :=
  optStrTruthy s.assets_dir = true ∧
  ¬ (fs.pathExists (pathJoin dd (s.assets_dir.getD "")) = true ∧
     fs.isDir (pathJoin dd (s.assets_dir.getD "")) = true ∧
     fs.fileCount (pathJoin dd (s.assets_dir.getD "")) = s.asset_count)

/-- Spec §3: a recorded screenshot must live in the HTML's snapshot
directory. -/
def specScreenshotDirViolation (s : Snapshot) : Prop :=
  s.html_path ≠ "" ∧ optStrTruthy s.screenshot_path = true ∧
  pathParent s.html_path ≠ pathParent (s.screenshot_path.getD "")

/-- Spec §3: recorded assets must live in the HTML's snapshot directory. -/
def specAssetsDirViolation (s : Snapshot) : Prop :=
  s.html_path ≠ "" ∧ optStrTruthy s.assets_dir = true ∧
  pathParent s.html_path ≠ pathParent (s.assets_dir.getD "")

/-- The three possible HTML-invariant messages. -/
def htmlErrorMsgs (s : Snapshot) : List String :=
  ["HTML file does not exist: " ++ s.html_path,
   "HTML path is not a file: " ++ s.html_path,
   "HTML path is empty but snapshot marked as successful"]

/-- The three possible assets-invariant messages. -/
def assetsErrorMsgs (s : Snapshot) (fs : FileSys) (dd : String) : List String :=
  ["Assets directory does not exist: " ++ s.assets_dir.getD "",
   "Assets path is not a directory: " ++ s.assets_dir.getD "",
   "Asset count mismatch: metadata says " ++ toString s.asset_count ++
     ", but found " ++ toString (fs.fileCount (pathJoin dd (s.assets_dir.getD ""))) ++ " files"]

theorem htmlErrors_complete (s : Snapshot) (fs : FileSys) (dd : String)
    (h : specHtmlViolation s fs dd) :
    ∃ m ∈ htmlErrors s fs dd, m ∈ htmlErrorMsgs s := by
  obtain ⟨hs, hno⟩ := h
  by_cases hp : s.html_path = ""
  · exact ⟨"HTML path is empty but snapshot marked as successful",
      by simp [htmlErrors, hp, hs], by simp [htmlErrorMsgs]⟩
  · by_cases he : fs.pathExists (pathJoin dd s.html_path) = true
    · by_cases hf : fs.isFile (pathJoin dd s.html_path) = true
      · exact absurd ⟨hp, he, hf⟩ hno
      · exact ⟨"HTML path is not a file: " ++ s.html_path,
          by simp [htmlErrors, hp, he, hf], by simp [htmlErrorMsgs]⟩
    · exact ⟨"HTML file does not exist: " ++ s.html_path,
        by simp [htmlErrors, hp, he], by simp [htmlErrorMsgs]⟩

theorem assetsErrors_complete (s : Snapshot) (fs : FileSys) (dd : String)
    (h : specAssetsViolation s fs dd) :
    ∃ m ∈ assetsErrors s fs dd, m ∈ assetsErrorMsgs s fs dd := by
  obtain ⟨ht, hno⟩ := h
  by_cases he : fs.pathExists (pathJoin dd (s.assets_dir.getD "")) = true
  · by_cases hd : fs.isDir (pathJoin dd (s.assets_dir.getD "")) = true
    · by_cases hc : fs.fileCount (pathJoin dd (s.assets_dir.getD "")) = s.asset_count
      · exact absurd ⟨he, hd, hc⟩ hno
      · exact ⟨"Asset count mismatch: metadata says " ++ toString s.asset_count ++
            ", but found " ++ toString (fs.fileCount (pathJoin dd (s.assets_dir.getD ""))) ++
            " files",
          by simp [assetsErrors, ht, he, hd, hc], by simp [assetsErrorMsgs]⟩
    · exact ⟨"Assets path is not a directory: " ++ s.assets_dir.getD "",
        by simp [assetsErrors, ht, he, hd], by simp [assetsErrorMsgs]⟩
  · exact ⟨"Assets directory does not exist: " ++ s.assets_dir.getD "",
      by simp [assetsErrors, ht, he], by simp [assetsErrorMsgs]⟩

theorem parentErrors_screenshot_complete (s : Snapshot)
    (h : specScreenshotDirViolation s) :
    "HTML and screenshot are not in the same snapshot directory" ∈ parentErrors s := by
  obtain ⟨hp, ht, hne⟩ := h
  simp [parentErrors, hp, ht, hne]

theorem parentErrors_assets_complete (s : Snapshot)
    (h : specAssetsDirViolation s) :
    "HTML and assets are not in the same snapshot directory" ∈ parentErrors s := by
  obtain ⟨hp, ht, hne⟩ := h
  simp [parentErrors, hp, ht, hne]

/-- **C6.** `validate_integrity` is sound and complete for the §3 invariants:
the validity flag is exactly "no error messages", and each violated
invariant — success without an existing HTML file, recorded assets directory
missing or with a file count differing from `asset_count`, screenshot or
assets outside the HTML's snapshot directory — contributes its own message
to the returned list, so every violation is reported, not just the first. -/
theorem validate_integrity_reports_all (s : Snapshot) (fs : FileSys) (dd : String) :
    ((validate_integrity s fs dd).1 = true ↔ (validate_integrity s fs dd).2 = []) ∧
    (specHtmlViolation s fs dd →
      ∃ m ∈ (validate_integrity s fs dd).2, m ∈ htmlErrorMsgs s) ∧
    (specAssetsViolation s fs dd →
      ∃ m ∈ (validate_integrity s fs dd).2, m ∈ assetsErrorMsgs s fs dd) ∧
    (specScreenshotDirViolation s →
      "HTML and screenshot are not in the same snapshot directory" ∈ (validate_integrity s fs dd).2) ∧
    (specAssetsDirViolation s →
      "HTML and assets are not in the same snapshot directory" ∈ (validate_integrity s fs dd).2) := by
  refine ⟨?_, ?_, ?_, ?_, ?_⟩
  · simp [validate_integrity, List.isEmpty_iff]
  · intro h
    obtain ⟨m, hm, hmsg⟩ := htmlErrors_complete s fs dd h
    exact ⟨m, by simp only [validate_integrity, List.mem_append]; exact Or.inl (Or.inl (Or.inl hm)), hmsg⟩
  · intro h
    obtain ⟨m, hm, hmsg⟩ := assetsErrors_complete s fs dd h
    exact ⟨m, by simp only [validate_integrity, List.mem_append]; exact Or.inl (Or.inr hm), hmsg⟩
  · intro h
    have hm := parentErrors_screenshot_complete s h
    simp only [validate_integrity, List.mem_append]
    exact Or.inr hm
  · intro h
    have hm := parentErrors_assets_complete s h
    simp only [validate_integrity, List.mem_append]
    exact Or.inr hm

/-- A snapshot with two simultaneous violations: wrong asset count and a
screenshot outside the HTML's directory. -/
def wSnap : Snapshot :=
  { id := "s", domain_id := "d", timestamp := "t", trigger_type := "manual",
    html_path := "snapshots/d/t/page.html",
    screenshot_path := some "snapshots/d/other/screenshot.png",
    assets_dir := some "snapshots/d/t/assets", asset_count := 2,
    success := true, error_message := none }

/-- A file system where everything exists and every directory has 3 files. -/
def wFs : FileSys :=
  { pathExists := fun _ => true, isFile := fun _ => true,
    isDir := fun _ => true, fileCount := fun _ => 3 }

/-- **C6 (witness).** Both simultaneous violations of `wSnap` are reported. -/
theorem validate_integrity_reports_all_witness :
    (∃ m ∈ (validate_integrity wSnap wFs "data").2, m ∈ assetsErrorMsgs wSnap wFs "data") ∧
    "HTML and screenshot are not in the same snapshot directory" ∈
      (validate_integrity wSnap wFs "data").2 :=
  ⟨(validate_integrity_reports_all wSnap wFs "data").2.2.1
     (by unfold specAssetsViolation; decide),
   (validate_integrity_reports_all wSnap wFs "data").2.2.2.1
     (by unfold specScreenshotDirViolation; decide)⟩

/-! ## `MonitoringService._perform_dump` (monitoring_service.py lines 175-324)

One run is driven by an oracle world giving each external call's outcome.
The storage calls that do file I/O (`append_ping_log`, `append_dump_log`,
`create_snapshot_directory`, `save_html`, `save_snapshot_metadata`) are
fallible; `fetch_html`, `capture_screenshot` and `download_assets` catch
their own internal errors (`download_assets` is additionally wrapped in a
local try/except in `_perform_dump`, so it is modelled fallible too).
`uuid.uuid4()` draws are per-site fresh identifiers; `datetime.utcnow()` is
a single `now` (its exact value is irrelevant to every claim proved here). -/

/-- Oracle for one `_perform_dump` run. -/
structure DumpWorld where
  now : String
  idSuccess : String
  idFetchFail : String
  idHandler : String
  fetchResult : String × Bool
  appendPingResult : Except PyErr Unit
  createSnapshotDirResult : Except PyErr String
  saveHtmlResult : Except PyErr String
  screenshotResult : Bool
  relScreenshotPath : String
  downloadAssetsResult : Except PyErr (List String)
  relAssetsDir : String
  saveMetadataResult : Except PyErr Unit
  appendDumpSuccessResult : Except PyErr Unit
  appendDumpFetchFailResult : Except PyErr Unit
  appendDumpHandlerResult : Except PyErr Unit

/-- Side effects persisted during one dump run. -/
structure DumpEffects where
  pingLog : List PingLogEntry
  dumpLog : List DumpLogEntry
  savedSnapshots : List Snapshot
deriving Repr, DecidableEq

/-- The `try` body of `_perform_dump` (monitoring_service.py lines 197-302);
an `Except.error` in the first component is an exception escaping the body. -/
def performDumpBody (w : DumpWorld) (domain : Domain) (trigger : String) :
    Except PyErr Snapshot × DumpEffects :=
  let html_content := w.fetchResult.1
  let fetch_success := w.fetchResult.2
  let ping : PingLogEntry :=
    if fetch_success then
      { timestamp := w.now, reachable := true, status_code := some 200,
        change_detected := false,
        message := pyCapitalize trigger ++ " dump for domain " ++ domain.url }
    else
      { timestamp := w.now, reachable := false, status_code := none,
        change_detected := false,
        message := "Failed to fetch HTML for domain " ++ domain.url ++ " after retries" }
  match w.appendPingResult with
  | .error e => (.error e, ⟨[], [], []⟩)
  | .ok _ =>
    let eff0 : DumpEffects := ⟨[ping], [], []⟩
    if fetch_success = false then
      let snapshot : Snapshot :=
        { id := w.idFetchFail, domain_id := domain.id, timestamp := w.now,
          trigger_type := trigger, html_path := "", screenshot_path := none,
          assets_dir := none, asset_count := 0, success := false,
          error_message := some "Failed to fetch HTML after retries" }
      let entry : DumpLogEntry :=
        { timestamp := w.now, trigger_type := trigger, snapshot_id := snapshot.id,
          success := false,
          error_message := some "Failed to fetch HTML after retries",
          message := "Failed to create " ++ trigger ++ " dump" }
      match w.appendDumpFetchFailResult with
      | .ok _ => (.ok snapshot, { eff0 with dumpLog := [entry] })
      | .error e => (.error e, eff0)
    else
      match w.createSnapshotDirResult with
      | .error e => (.error e, eff0)
      | .ok _snapshot_dir =>
        match w.saveHtmlResult with
        | .error e => (.error e, eff0)
        | .ok html_path =>
          let screenshot_path : Option String :=
            if w.screenshotResult then some w.relScreenshotPath else none
          let assetsPair : Option String × Nat :=
            if domain.dump_mode = "html_and_assets" then
              match w.downloadAssetsResult with
              | .ok files =>
                  if files.length > 0 then (some w.relAssetsDir, files.length)
                  else (none, files.length)
              | .error _ => (none, 0)
            else (none, 0)
          let snapshot : Snapshot :=
            { id := w.idSuccess, domain_id := domain.id, timestamp := w.now,
              trigger_type := trigger, html_path := html_path,
              screenshot_path := screenshot_path, assets_dir := assetsPair.1,
              asset_count := assetsPair.2, success := true, error_message := none }
          match w.saveMetadataResult with
          | .error e => (.error e, eff0)
          | .ok _ =>
            let eff1 : DumpEffects := { eff0 with savedSnapshots := [snapshot] }
            let entry : DumpLogEntry :=
              { timestamp := w.now, trigger_type := trigger,
                snapshot_id := snapshot.id, success := true, error_message := none,
                message := "Successfully created " ++ trigger ++ " dump" }
            match w.appendDumpSuccessResult with
            | .ok _ => (.ok snapshot, { eff1 with dumpLog := [entry] })
            | .error e => (.error e, eff1)

/-- The `except Exception` handler of `_perform_dump` (lines 303-324): build
a failed snapshot and try to append a failure dump-log entry.  The append is
itself a file write and not guarded, so its failure escapes. -/
def dumpHandler (w : DumpWorld) (domain : Domain) (trigger : String) (e : PyErr)
    (eff : DumpEffects) : Except PyErr Snapshot × DumpEffects :=
  let snapshot : Snapshot :=
    { id := w.idHandler, domain_id := domain.id, timestamp := w.now,
      trigger_type := trigger, html_path := "", screenshot_path := none,
      assets_dir := none, asset_count := 0, success := false,
      error_message := some ("Unexpected error during dump: " ++ e) }
  let entry : DumpLogEntry :=
    { timestamp := w.now, trigger_type := trigger, snapshot_id := snapshot.id,
      success := false, error_message := some ("Unexpected error: " ++ e),
      message := "Failed to create " ++ trigger ++ " dump" }
  match w.appendDumpHandlerResult with
  | .ok _ => (.ok snapshot, { eff with dumpLog := eff.dumpLog ++ [entry] })
  | .error e2 => (.error e2, eff)

/-- `MonitoringService._perform_dump`: the body wrapped in the outermost
try/except boundary. -/
def performDump (w : DumpWorld) (domain : Domain) (trigger : String) :
    Except PyErr Snapshot × DumpEffects :=
  match performDumpBody w domain trigger with
  | (.ok s, eff) => (.ok s, eff)
  | (.error e, eff) => dumpHandler w domain trigger e eff

/-- A snapshot the body returns without exception is either successful, or a
failed snapshot whose failure dump-log entry was appended. -/
theorem performDumpBody_ok_cases (w : DumpWorld) (domain : Domain) (trigger : String)
    (s : Snapshot) (eff : DumpEffects)
    (h : performDumpBody w domain trigger = (.ok s, eff)) :
    s.success = true ∨
    (s.success = false ∧ ∃ entry ∈ eff.dumpLog, entry.success = false ∧ entry.snapshot_id = s.id) := by
  unfold performDumpBody at h
  dsimp only at h
  repeat (any_goals (split at h))
  all_goals (injection h with h1 h2)
  all_goals (try exact Except.noConfusion h1)
  all_goals (injection h1 with h3)
  all_goals (subst h3; subst h2; simp)

/-- Every snapshot whose metadata the body persists has `success = true`:
the only `save_snapshot_metadata` call site is the success path. -/
theorem performDumpBody_saved (w : DumpWorld) (domain : Domain) (trigger : String)
    (res : Except PyErr Snapshot) (eff : DumpEffects)
    (h : performDumpBody w domain trigger = (res, eff)) :
    ∀ sn ∈ eff.savedSnapshots, sn.success = true := by
  unfold performDumpBody at h
  dsimp only at h
  repeat (any_goals (split at h))
  all_goals (injection h with h1 h2)
  all_goals (subst h2; simp)

/-- A concrete world in which the dump-log append inside the exception
handler itself raises (e.g. the disk fills up): the in-body ping-log append
raises, the handler runs, and its own append raises again. -/
def badWorld : DumpWorld :=
  { now := "t0", idSuccess := "s1", idFetchFail := "s2", idHandler := "s3",
    fetchResult := ("<html></html>", true),
    appendPingResult := .error "disk full",
    createSnapshotDirResult := .ok "d", saveHtmlResult := .ok "h",
    screenshotResult := false, relScreenshotPath := "p",
    downloadAssetsResult := .ok [], relAssetsDir := "a",
    saveMetadataResult := .ok (), appendDumpSuccessResult := .ok (),
    appendDumpFetchFailResult := .ok (),
    appendDumpHandlerResult := .error "disk full" }

/-- The domain used by the concrete runs. -/
def exDomain : Domain :=
  { id := "dom1", group_id := "g1", url := "https://example.com",
    dump_mode := "html_only", frequency_seconds := 60, created_at := "t0",
    last_checked_at := none, active := true }

/-- **C1 (counterexample).** `_perform_dump` is not exception-free as
claimed: in `badWorld` the ping-log append raises, and the failure dump-log
append inside the `except` handler raises too, so the call propagates an
exception to its caller instead of returning a failed Snapshot. -/
theorem performDump_propagates_at_badWorld :
    (performDump badWorld exDomain "manual").1 = Except.error "disk full" ∧
    ∀ s : Snapshot, (performDump badWorld exDomain "manual").1 ≠ Except.ok s := by
  constructor
  · rfl
  · intro s hs
    rw [show (performDump badWorld exDomain "manual").1 = Except.error "disk full" from rfl] at hs
    exact Except.noConfusion hs

/-- **C1 (amended).** Provided the dump-log append inside the exception
handler does not itself raise, `_perform_dump` never propagates an
exception: it always returns a Snapshot, and whenever that Snapshot has
`success = false` a failure `DumpLogEntry` referencing it has been appended
to the domain's dump log. -/
theorem performDump_no_propagate (w : DumpWorld) (domain : Domain) (trigger : String)
    (h : w.appendDumpHandlerResult = Except.ok ()) :
    ∃ s : Snapshot, (performDump w domain trigger).1 = Except.ok s ∧
      (s.success = false →
        ∃ entry ∈ (performDump w domain trigger).2.dumpLog,
          entry.success = false ∧ entry.snapshot_id = s.id) := by
  rcases hb : performDumpBody w domain trigger with ⟨res, eff⟩
  rcases res with e | s
  · rw [performDump, hb]
    unfold dumpHandler
    rw [h]
    exact ⟨_, rfl, fun _ => ⟨_, List.mem_append_right _ (List.mem_singleton_self _), rfl, rfl⟩⟩
  · refine ⟨s, ?_, ?_⟩
    · rw [performDump, hb]
    · intro hfail
      rcases performDumpBody_ok_cases w domain trigger s eff hb with hsucc | ⟨-, entry, hmem, hprop⟩
      · rw [hsucc] at hfail; exact Bool.noConfusion hfail
      · rw [performDump, hb]
        exact ⟨entry, hmem, hprop⟩

/-- A concrete world whose body raises at `save_html` while the handler
append succeeds. -/
def recoveringWorld : DumpWorld :=
  { now := "t0", idSuccess := "s1", idFetchFail := "s2", idHandler := "s3",
    fetchResult := ("<html></html>", true),
    appendPingResult := .ok (),
    createSnapshotDirResult := .ok "d", saveHtmlResult := .error "boom",
    screenshotResult := false, relScreenshotPath := "p",
    downloadAssetsResult := .ok [], relAssetsDir := "a",
    saveMetadataResult := .ok (), appendDumpSuccessResult := .ok (),
    appendDumpFetchFailResult := .ok (),
    appendDumpHandlerResult := .ok () }

/-- **C1 (witness).** The amended theorem applied to `recoveringWorld`. -/
theorem performDump_no_propagate_witness :
    ∃ s : Snapshot, (performDump recoveringWorld exDomain "manual").1 = Except.ok s ∧
      (s.success = false →
        ∃ entry ∈ (performDump recoveringWorld exDomain "manual").2.dumpLog,
          entry.success = false ∧ entry.snapshot_id = s.id) :=
  performDump_no_propagate recoveringWorld exDomain "manual" rfl

/-! ## Snapshot persistence and retrieval (storage_manager.py lines 161-216)

The metadata store is the list of snapshots whose `save_snapshot_metadata`
write succeeded; in the running system each lives in its own
`snapshots/<domain_id>/<timestamp>/metadata.json`. -/

/-- Stable insertion of a snapshot into a timestamp-sorted list. -/
def insertByTimestamp (s : Snapshot) : List Snapshot → List Snapshot
  | [] => [s]
  | t :: rest =>
    if lexLe s.timestamp.data t.timestamp.data then s :: t :: rest
    else t :: insertByTimestamp s rest

/-- `snapshots.sort(key=lambda s: s.timestamp)` (only order-independent
properties are proved about the result). -/
def sortByTimestamp : List Snapshot → List Snapshot
  | [] => []
  | s :: rest => insertByTimestamp s (sortByTimestamp rest)

/-- `StorageManager.load_snapshots_for_domain`: the domain's metadata
documents, sorted by capture timestamp. -/
def load_snapshots_for_domain (store : List Snapshot) (domain_id : String) :
    List Snapshot :=
  sortByTimestamp (store.filter (fun s => s.domain_id == domain_id))

/-- `StorageManager.get_snapshot`: scan the snapshot tree for the first
metadata document with the requested identifier. -/
def get_snapshot (store : List Snapshot) (snapshot_id : String) : Option Snapshot :=
  store.find? (fun s => s.id == snapshot_id)

theorem mem_insertByTimestamp {s x : Snapshot} {l : List Snapshot} :
    x ∈ insertByTimestamp s l ↔ x = s ∨ x ∈ l := by
  induction l with
  | nil => simp [insertByTimestamp]
  | cons t rest ih =>
    by_cases hc : lexLe s.timestamp.data t.timestamp.data = true
    · simp [insertByTimestamp, hc]
    · simp only [insertByTimestamp, if_neg hc, List.mem_cons, ih]
      tauto

theorem mem_sortByTimestamp {x : Snapshot} {l : List Snapshot} :
    x ∈ sortByTimestamp l ↔ x ∈ l := by
  induction l with
  | nil => simp [sortByTimestamp]
  | cons s rest ih => simp [sortByTimestamp, mem_insertByTimestamp, ih]

/-- Every snapshot persisted by a `_perform_dump` run has `success = true`
(the handler persists nothing). -/
theorem performDump_saved_all_success (w : DumpWorld) (d : Domain) (t : String) :
    ∀ sn ∈ (performDump w d t).2.savedSnapshots, sn.success = true := by
  intro sn hsn
  rcases hb : performDumpBody w d t with ⟨res, eff⟩
  have hsave := performDumpBody_saved w d t res eff hb
  rcases res with e | s
  · rw [performDump, hb] at hsn
    unfold dumpHandler at hsn
    rcases hh : w.appendDumpHandlerResult with e2 | u <;> rw [hh] at hsn <;>
      exact hsave sn (by simpa using hsn)
  · rw [performDump, hb] at hsn
    exact hsave sn hsn

/-- The metadata store produced by a sequence of dump runs. -/
def storeOfRuns (runs : List (DumpWorld × Domain × String)) : List Snapshot :=
  (runs.map (fun r => (performDump r.1 r.2.1 r.2.2).2.savedSnapshots)).flatten

/-- **C10.** Snapshot metadata is written only on the successful-capture
path, so every snapshot in the store of any sequence of dump runs has
`success = true`; consequently `load_snapshots_for_domain` and
`get_snapshot` only ever return successful snapshots, and a failed Snapshot
returned by `_perform_dump` is never among the persisted ones. -/
theorem persisted_snapshots_always_successful (runs : List (DumpWorld × Domain × String)) :
    (∀ s ∈ storeOfRuns runs, s.success = true) ∧
    (∀ did s, s ∈ load_snapshots_for_domain (storeOfRuns runs) did → s.success = true) ∧
    (∀ sid s, get_snapshot (storeOfRuns runs) sid = some s → s.success = true) ∧
    (∀ r ∈ runs, ∀ s : Snapshot, s.success = false →
      s ∉ (performDump r.1 r.2.1 r.2.2).2.savedSnapshots) := by
  have hall : ∀ s ∈ storeOfRuns runs, s.success = true := by
    intro s hs
    simp only [storeOfRuns, List.mem_flatten, List.mem_map] at hs
    obtain ⟨l, ⟨r, _, rfl⟩, hmem⟩ := hs
    exact performDump_saved_all_success r.1 r.2.1 r.2.2 s hmem
  refine ⟨hall, ?_, ?_, ?_⟩
  · intro did s hs
    rw [load_snapshots_for_domain, mem_sortByTimestamp] at hs
    exact hall s (List.mem_of_mem_filter hs)
  · intro sid s hs
    exact hall s (List.mem_of_find?_eq_some hs)
  · intro r _ s hfail hmem
    have := performDump_saved_all_success r.1 r.2.1 r.2.2 s hmem
    rw [hfail] at this
    exact Bool.noConfusion this

/-- A fully successful dump run. -/
def goodWorld : DumpWorld :=
  { now := "2024-01-01T00:00:00Z", idSuccess := "s1", idFetchFail := "s2", idHandler := "s3",
    fetchResult := ("<html></html>", true),
    appendPingResult := .ok (),
    createSnapshotDirResult := .ok "data/snapshots/dom1/t", saveHtmlResult := .ok "snapshots/dom1/t/page.html",
    screenshotResult := false, relScreenshotPath := "snapshots/dom1/t/screenshot.png",
    downloadAssetsResult := .ok [], relAssetsDir := "snapshots/dom1/t/assets",
    saveMetadataResult := .ok (), appendDumpSuccessResult := .ok (),
    appendDumpFetchFailResult := .ok (),
    appendDumpHandlerResult := .ok () }

/-- **C10 (witness).** The store of one successful run contains a snapshot,
and it is reported successful by the theorem. -/
theorem persisted_snapshots_always_successful_witness :
    ((performDump goodWorld exDomain "initial").2.savedSnapshots.length = 1) ∧
    (∀ s ∈ storeOfRuns [(goodWorld, exDomain, "initial")], s.success = true) :=
  ⟨by decide, (persisted_snapshots_always_successful [(goodWorld, exDomain, "initial")]).1⟩

/-! ## `MonitoringService.trigger_force_dump` (monitoring_service.py lines 140-173)

The lock marker file `snapshots/<domain_id>/.dump_lock` is modelled as a
Boolean; the oracle gives the outcomes of `get_domain`, the `mkdir`/`touch`
creating the lock, and the `_perform_dump` call (which may raise; see C1). -/

/-- Oracle for one `trigger_force_dump` call. -/
structure ForceDumpWorld where
  domainFound : Option Domain
  touchResult : Except PyErr Unit
  dumpResult : Except PyErr Snapshot

/-- Observable result of one `trigger_force_dump` call. -/
structure ForceDumpOutcome where
  result : Except PyErr Snapshot
  lockAfter : Bool
  dumpPerformed : Bool
deriving Repr

/-- `MonitoringService.trigger_force_dump`: fail on unknown domain; fail
fast if the lock marker exists (raised before the `try`, so the other call's
lock is untouched); otherwise create the lock, dump inside `try`, and in
`finally` remove the lock if it exists. -/
def trigger_force_dump (w : ForceDumpWorld) (domain_id : String) (lockExists : Bool) :
    ForceDumpOutcome :=
  match w.domainFound with
  | none => ⟨.error ("Domain not found: " ++ domain_id), lockExists, false⟩
  | some _ =>
    if lockExists then
      ⟨.error ("A dump is already in progress for domain " ++ domain_id), lockExists, false⟩
    else
      match w.touchResult with
      | .error e => ⟨.error e, false, false⟩
      | .ok _ =>
        match w.dumpResult with
        | .ok s => ⟨.ok s, false, true⟩
        | .error e => ⟨.error e, false, true⟩

/-- **C4.** Single-flight per domain: with the lock marker present the call
fails immediately with the dump-in-progress error, performs no dump and
leaves the lock to its owner; with the lock absent, the dump runs only after
the lock is created, and on every exit path — normal return, dump exception,
or failed lock creation — the lock ends up absent, so a second force-dump
issued after the first completes is never rejected as in-progress and
succeeds when its own dump succeeds. -/
theorem trigger_force_dump_single_flight (w w2 : ForceDumpWorld) (domain_id : String)
    (d d2 : Domain) (s2 : Snapshot)
    (hfound : w.domainFound = some d)
    (h2found : w2.domainFound = some d2)
    (h2touch : w2.touchResult = Except.ok ())
    (h2dump : w2.dumpResult = Except.ok s2) :
    ((trigger_force_dump w domain_id true).result =
       Except.error ("A dump is already in progress for domain " ++ domain_id) ∧
     (trigger_force_dump w domain_id true).dumpPerformed = false ∧
     (trigger_force_dump w domain_id true).lockAfter = true) ∧
    ((trigger_force_dump w domain_id false).lockAfter = false) ∧
    ((trigger_force_dump w domain_id false).dumpPerformed = true →
       w.touchResult = Except.ok ()) ∧
    ((trigger_force_dump w2 domain_id
        (trigger_force_dump w domain_id false).lockAfter).result = Except.ok s2) := by
  have hlock : ∀ le, (trigger_force_dump w domain_id le).lockAfter = le ∨
      (trigger_force_dump w domain_id le).lockAfter = false := by
    intro le
    unfold trigger_force_dump
    rw [hfound]
    rcases le with _ | _
    · simp
      rcases w.touchResult with e | u
      · simp
      · rcases w.dumpResult with e | s <;> simp
    · simp
  refine ⟨?_, ?_, ?_, ?_⟩
  · unfold trigger_force_dump
    rw [hfound]
    simp
  · unfold trigger_force_dump
    rw [hfound]
    simp only [if_neg (by simp : ¬ (false = true))]
    rcases w.touchResult with e | u
    · rfl
    · rcases w.dumpResult with e | s <;> rfl
  · unfold trigger_force_dump
    rw [hfound]
    simp only [if_neg (by simp : ¬ (false = true))]
    rcases ht : w.touchResult with e | u
    · intro hc; exact absurd hc (by simp)
    · intro _; rfl
  · have hla : (trigger_force_dump w domain_id false).lockAfter = false := by
      unfold trigger_force_dump
      rw [hfound]
      simp only [if_neg (by simp : ¬ (false = true))]
      rcases w.touchResult with e | u
      · rfl
      · rcases w.dumpResult with e | s <;> rfl
    rw [hla]
    unfold trigger_force_dump
    rw [h2found, h2touch, h2dump]
    rfl

/-- Concrete worlds for the witness: the first call's dump raises, the
second call's dump succeeds. -/
def fdWorld1 : ForceDumpWorld :=
  { domainFound := some exDomain, touchResult := .ok (), dumpResult := .error "boom" }

/-- The successful snapshot returned by the second call. -/
def fdSnap : Snapshot :=
  { id := "s9", domain_id := "dom1", timestamp := "t1", trigger_type := "manual",
    html_path := "snapshots/dom1/t1/page.html", screenshot_path := none,
    assets_dir := none, asset_count := 0, success := true, error_message := none }

/-- Second concrete world. -/
def fdWorld2 : ForceDumpWorld :=
  { domainFound := some exDomain, touchResult := .ok (), dumpResult := .ok fdSnap }

/-- **C4 (witness).** The theorem at the concrete worlds: lock-held call
rejected without dumping, lock released even though the first dump raised,
and the follow-up call succeeds. -/
theorem trigger_force_dump_single_flight_witness :
    ((trigger_force_dump fdWorld1 "dom1" true).result =
       Except.error ("A dump is already in progress for domain " ++ "dom1") ∧
     (trigger_force_dump fdWorld1 "dom1" true).dumpPerformed = false ∧
     (trigger_force_dump fdWorld1 "dom1" true).lockAfter = true) ∧
    ((trigger_force_dump fdWorld1 "dom1" false).lockAfter = false) ∧
    ((trigger_force_dump fdWorld1 "dom1" false).dumpPerformed = true →
       fdWorld1.touchResult = Except.ok ()) ∧
    ((trigger_force_dump fdWorld2 "dom1"
        (trigger_force_dump fdWorld1 "dom1" false).lockAfter).result = Except.ok fdSnap) :=
  trigger_force_dump_single_flight fdWorld1 fdWorld2 "dom1" exDomain exDomain fdSnap
    rfl rfl rfl rfl

/-! ## `MonitoringService.create_group` (monitoring_service.py lines 23-80)
and `_validate_domain_config` (lines 427-454)

A domain-configuration dict may miss keys, and present values may have the
shapes the validation discriminates (string / int).  Persistence and the
post-creation steps are recorded as an ordered effect trace. -/

/-- A Python value as far as the validation inspects it. -/
inductive PyVal where
  | str (s : String)
  | int (n : Int)
deriving Repr, DecidableEq

/-- A domain-configuration dict (keys may be absent). -/
structure DomainConfig where
  url : Option PyVal
  dump_mode : Option PyVal
  frequency_seconds : Option PyVal
deriving Repr, DecidableEq

/-- `MAX_DOMAINS_PER_GROUP` (config.py default 100). -/
def MAX_DOMAINS_PER_GROUP : Nat := 100

/-- `MonitoringService._validate_domain_config`: raise `ValueError` on the
first violated rule, in source order.  (The Python messages quote the
accepted values; the quotes are omitted here.) -/
def _validate_domain_config (config : DomainConfig) : Except PyErr Unit :=
  if config.url = none then .error "Missing required field: url"
  else if config.dump_mode = none then .error "Missing required field: dump_mode"
  else if config.frequency_seconds = none then .error "Missing required field: frequency_seconds"
  else
    match config.url with
    | some (.str u) =>
      if u = "" then .error "URL must be a non-empty string"
      else if ¬ (pyStartsWith u "http://" ∨ pyStartsWith u "https://") then
        .error "URL must start with http:// or https://"
      else if config.dump_mode ≠ some (.str "html_only") ∧
          config.dump_mode ≠ some (.str "html_and_assets") then
        .error "dump_mode must be html_only or html_and_assets"
      else
        match config.frequency_seconds with
        | some (.int n) =>
          if n ≤ 0 then .error "frequency_seconds must be a positive integer" else .ok ()
        | _ => .error "frequency_seconds must be a positive integer"
    | _ => .error "URL must be a non-empty string"

/-- Validate each configuration in order, failing on the first error
(the `for config in domain_configs` loop at lines 52-53). -/
def validateConfigs : List DomainConfig → Except PyErr Unit
  | [] => .ok ()
  | c :: rest =>
    match _validate_domain_config c with
    | .error e => .error e
    | .ok _ => validateConfigs rest

/-- Persistence and post-creation steps of `create_group`, in order. -/
inductive CreateEvent where
  | savedGroup (g : Group)
  | savedDomain (d : Domain)
  | initialDump (domainId : String)
  | scheduled (domainId : String)
deriving Repr, DecidableEq

/-- Fresh identifiers and timestamp for one `create_group` call. -/
structure CreateIds where
  groupId : String
  domainIds : List String
  now : String

/-- `Domain.create` from a validated configuration. -/
def mkDomain (gid now did : String) (c : DomainConfig) : Domain :=
  { id := did, group_id := gid,
    url := match c.url with | some (.str u) => u | _ => "",
    dump_mode := match c.dump_mode with | some (.str m) => m | _ => "",
    frequency_seconds := match c.frequency_seconds with | some (.int n) => n | _ => 0,
    created_at := now, last_checked_at := none, active := true }

/-- `MonitoringService.create_group`: all validation first; only then are the
Group and Domains constructed, persisted, first-dumped and scheduled. -/
def create_group (ids : CreateIds) (name : String) (domain_configs : List DomainConfig) :
    Except PyErr (Group × List Domain) × List CreateEvent :=
  if pyStrip name = "" then (.error "Group name cannot be empty", [])
  else if domain_configs = [] then (.error "At least one domain is required", [])
  else if domain_configs.length > MAX_DOMAINS_PER_GROUP then
    (.error ("Cannot create group with more than " ++ toString MAX_DOMAINS_PER_GROUP ++ " domains"), [])
  else
    match validateConfigs domain_configs with
    | .error e => (.error e, [])
    | .ok _ =>
      let domains := (domain_configs.zip ids.domainIds).map
        (fun p => mkDomain ids.groupId ids.now p.2 p.1)
      let group : Group :=
        { id := ids.groupId, name := pyStrip name, created_at := ids.now,
          domain_ids := domains.map (fun d => d.id) }
      (.ok (group, domains),
       [CreateEvent.savedGroup group] ++
       domains.map (fun d => CreateEvent.savedDomain d) ++
       domains.map (fun d => CreateEvent.initialDump d.id) ++
       domains.map (fun d => CreateEvent.scheduled d.id))

/-- Spec-side description of an invalid configuration (§4.3): missing field,
non-string or empty URL, URL without an `http(s)://` scheme, capture mode
outside the two-value enum, or a non-integer or non-positive interval. -/
def configInvalid (c : DomainConfig) : Prop :=
  c.url = none ∨ c.dump_mode = none ∨ c.frequency_seconds = none ∨
  (∀ u, c.url ≠ some (.str u)) ∨
  c.url = some (.str "") ∨
  (∃ u, c.url = some (.str u) ∧
    ¬ (pyStartsWith u "http://" ∨ pyStartsWith u "https://")) ∨
  (c.dump_mode ≠ some (.str "html_only") ∧ c.dump_mode ≠ some (.str "html_and_assets")) ∨
  (∀ n, c.frequency_seconds ≠ some (.int n)) ∨
  (∃ n, c.frequency_seconds = some (.int n) ∧ n ≤ 0)

/-- An invalid configuration fails `_validate_domain_config`. -/
theorem validate_config_rejects (c : DomainConfig) (h : configInvalid c) :
    ∃ e, _validate_domain_config c = .error e := by
  obtain ⟨cu, cm, cf⟩ := c
  unfold configInvalid at h
  unfold _validate_domain_config
  dsimp only at h ⊢
  rcases cu with _ | cuv
  · simp
  · rcases cm with _ | cmv
    · simp
    · rcases cf with _ | cfv
      · simp
      · simp only [reduceCtorEq, if_false]
        rcases cuv with u | un
        · dsimp only
          by_cases he : u = ""
          · exact ⟨_, by rw [if_pos he]⟩
          · by_cases hs : pyStartsWith u "http://" = true ∨ pyStartsWith u "https://" = true
            · by_cases hdm : some cmv ≠ some (PyVal.str "html_only") ∧
                  some cmv ≠ some (PyVal.str "html_and_assets")
              · exact ⟨_, by rw [if_neg he, if_neg (not_not_intro hs), if_pos hdm]⟩
              · rcases cfv with fcs | n
                · exact ⟨_, by dsimp only; rw [if_neg he, if_neg (not_not_intro hs), if_neg hdm]⟩
                · dsimp only
                  by_cases hn : n ≤ 0
                  · exact ⟨_, by rw [if_neg he, if_neg (not_not_intro hs), if_neg hdm,
                      if_pos hn]⟩
                  · exfalso
                    rcases h with h | h | h | h | h | h | h | h | h
                    · exact Option.noConfusion h
                    · exact Option.noConfusion h
                    · exact Option.noConfusion h
                    · exact (h u) rfl
                    · exact he (by simpa using h)
                    · obtain ⟨u2, hu2, hns⟩ := h
                      have hequ : u = u2 := by simpa using hu2
                      subst hequ
                      exact hns hs
                    · exact hdm h
                    · exact (h n) rfl
                    · obtain ⟨m, hm2, hle⟩ := h
                      have heqn : n = m := by simpa using hm2
                      subst heqn
                      exact hn hle
            · exact ⟨_, by rw [if_neg he, if_pos hs]⟩
        · exact ⟨_, by dsimp only⟩

/-- A list containing an invalid configuration fails `validateConfigs`. -/
theorem validateConfigs_rejects : ∀ (l : List DomainConfig),
    (∃ c ∈ l, configInvalid c) → ∃ e, validateConfigs l = .error e := by
  intro l
  induction l with
  | nil => rintro ⟨c, hc, -⟩; exact absurd hc (List.not_mem_nil c)
  | cons c rest ih =>
    rintro ⟨c0, hc0, hinv⟩
    unfold validateConfigs
    rcases hv : _validate_domain_config c with e | u
    · exact ⟨e, rfl⟩
    · rcases List.mem_cons.mp hc0 with rfl | hmem
      · obtain ⟨e, he⟩ := validate_config_rejects c0 hinv
        rw [hv] at he
        exact Except.noConfusion he
      · exact ih ⟨c0, hmem, hinv⟩

/-- **C5.** Any call whose input violates validation — empty or whitespace
name, zero configurations, more than the per-group maximum, or any
configuration invalid per §4.3 — fails with a validation error and has an
empty effect trace: no Group and no Domain is persisted, no initial dump
runs and nothing is scheduled, because all validation happens before any
entity is constructed or saved. -/
theorem create_group_validation_atomic (ids : CreateIds) (name : String)
    (configs : List DomainConfig)
    (h : pyStrip name = "" ∨ configs = [] ∨ configs.length > MAX_DOMAINS_PER_GROUP ∨
         ∃ c ∈ configs, configInvalid c) :
    (∃ e, (create_group ids name configs).1 = .error e) ∧
    (create_group ids name configs).2 = [] := by
  unfold create_group
  by_cases hn : pyStrip name = ""
  · rw [if_pos hn]; exact ⟨⟨_, rfl⟩, rfl⟩
  · rw [if_neg hn]
    by_cases hz : configs = []
    · rw [if_pos hz]; exact ⟨⟨_, rfl⟩, rfl⟩
    · rw [if_neg hz]
      by_cases hmax : configs.length > MAX_DOMAINS_PER_GROUP
      · rw [if_pos hmax]; exact ⟨⟨_, rfl⟩, rfl⟩
      · rw [if_neg hmax]
        have hinv : ∃ c ∈ configs, configInvalid c := by
          rcases h with h | h | h | h
          · exact absurd h hn
          · exact absurd h hz
          · exact absurd h hmax
          · exact h
        obtain ⟨e, he⟩ := validateConfigs_rejects configs hinv
        rw [he]
        exact ⟨⟨e, rfl⟩, rfl⟩

/-- A configuration whose URL lacks an `http(s)://` scheme. -/
def ftpConfig : DomainConfig :=
  { url := some (.str "ftp://example.com"), dump_mode := some (.str "html_only"),
    frequency_seconds := some (.int 60) }

/-- **C5 (witness).** A group creation with one `ftp://` configuration fails
and persists nothing. -/
theorem create_group_validation_atomic_witness :
    (∃ e, (create_group ⟨"g1", ["d1"], "t0"⟩ "mygroup" [ftpConfig]).1 = .error e) ∧
    (create_group ⟨"g1", ["d1"], "t0"⟩ "mygroup" [ftpConfig]).2 = [] :=
  create_group_validation_atomic ⟨"g1", ["d1"], "t0"⟩ "mygroup" [ftpConfig]
    (Or.inr (Or.inr (Or.inr ⟨ftpConfig, by simp, by
      unfold configInvalid
      refine Or.inr (Or.inr (Or.inr (Or.inr (Or.inr (Or.inl ?_)))))
      exact ⟨"ftp://example.com", rfl, by decide⟩⟩)))

/-! ## `DomainScheduler.check_domain` (scheduler.py lines 89-183)

One scheduler tick, driven by an oracle world.  The entire body sits in a
try/except whose handler appends an unreachable ping entry inside its own
guard; the comparison uses the real `compare_html`.  The automatic dump
delegation is recorded as a flag (its own errors are swallowed at the call
site, lines 161-164). -/

/-- Oracle for one `check_domain` tick. -/
structure CheckWorld where
  now : String
  getDomainResult : Option Domain
  fetchResult : String × Bool
  saveDomainResult : Except PyErr Unit
  snapshots : List Snapshot
  loadHtmlResult : Except PyErr String
  appendPingResult : Except PyErr Unit
  appendPingHandlerResult : Except PyErr Unit

/-- Observable effects of one tick. -/
structure CheckEffects where
  pings : List PingLogEntry
  autoDumpTriggered : Bool
deriving Repr, DecidableEq

/-- The outer exception handler (scheduler.py lines 173-183): its ping
append is wrapped in its own try/except pass. -/
def checkHandler (w : CheckWorld) (e : PyErr) : CheckEffects :=
  match w.appendPingHandlerResult with
  | .ok _ => ⟨[⟨w.now, false, none, false,
      "Unexpected error during domain check: " ++ e⟩], false⟩
  | .error _ => ⟨[], false⟩

/-- `DomainScheduler.check_domain`. -/
def check_domain (w : CheckWorld) : CheckEffects :=
  match w.getDomainResult with
  | none => ⟨[], false⟩
  | some domain =>
    if domain.active = false then ⟨[], false⟩
    else
      match w.saveDomainResult with
      | .error e => checkHandler w e
      | .ok _ =>
        if w.fetchResult.2 = false then
          match w.appendPingResult with
          | .ok _ => ⟨[⟨w.now, false, none, false,
              "Failed to fetch HTML for " ++ domain.url ++ " after retries"⟩], false⟩
          | .error e => checkHandler w e
        else if w.snapshots = [] then
          match w.appendPingResult with
          | .ok _ => ⟨[⟨w.now, true, some 200, false,
              "No previous snapshot found for comparison"⟩], false⟩
          | .error e => checkHandler w e
        else
          match w.loadHtmlResult with
          | .error e =>
            match w.appendPingResult with
            | .ok _ => ⟨[⟨w.now, true, some 200, false,
                "Failed to load previous snapshot for comparison: " ++ e⟩], false⟩
            | .error e2 => checkHandler w e2
          | .ok previous_html =>
            if compare_html previous_html w.fetchResult.1 then
              match w.appendPingResult with
              | .ok _ => ⟨[⟨w.now, true, some 200, true,
                  "Change detected for " ++ domain.url⟩], true⟩
              | .error e => checkHandler w e
            else
              match w.appendPingResult with
              | .ok _ => ⟨[⟨w.now, true, some 200, false,
                  "No change detected for " ++ domain.url⟩], false⟩
              | .error e => checkHandler w e

/-- **C9.** When the fetch succeeds, a prior snapshot exists, but loading
its stored HTML raises, the tick appends exactly one ping entry with
`reachable = true` and `change_detected = false` (the comparison-failed
message) and stops without triggering an automatic dump: a comparison
failure is never treated as a content change. -/
theorem check_domain_load_failure_no_dump (w : CheckWorld) (d : Domain)
    (hd : w.getDomainResult = some d) (hact : d.active = true)
    (hsave : w.saveDomainResult = Except.ok ())
    (hfetch : w.fetchResult.2 = true)
    (hsnap : w.snapshots ≠ [])
    (e : PyErr) (hload : w.loadHtmlResult = Except.error e)
    (happend : w.appendPingResult = Except.ok ()) :
    check_domain w =
      ⟨[⟨w.now, true, some 200, false,
         "Failed to load previous snapshot for comparison: " ++ e⟩], false⟩ := by
  unfold check_domain
  rw [hd]
  dsimp only
  rw [hact, hsave]
  dsimp only
  rw [hfetch]
  simp only [Bool.true_eq_false, if_false, if_neg hsnap]
  rw [hload, happend]

/-- Concrete world where the stored HTML of the prior snapshot cannot be
read back. -/
def loadFailWorld : CheckWorld :=
  { now := "t2", getDomainResult := some exDomain,
    fetchResult := ("<html>new</html>", true),
    saveDomainResult := .ok (), snapshots := [fdSnap],
    loadHtmlResult := .error "No such file or directory",
    appendPingResult := .ok (), appendPingHandlerResult := .ok () }

/-- **C9 (witness).** The theorem at `loadFailWorld`. -/
theorem check_domain_load_failure_no_dump_witness :
    check_domain loadFailWorld =
      ⟨[⟨"t2", true, some 200, false,
         "Failed to load previous snapshot for comparison: " ++ "No such file or directory"⟩],
       false⟩ :=
  check_domain_load_failure_no_dump loadFailWorld exDomain rfl rfl rfl rfl
    (by decide) "No such file or directory" rfl rfl

end VigilWolf
